import Mathlib

/-!
Verification of the synthetic healthcare data pipeline
(`src/data_generator.py`, `src/db_utils.py`).

The Python generators draw from numpy's global pseudo-random generator,
which both functions reset with `np.random.seed(42)` as their first step.
We embed that generator as an abstract infinite stream of raw natural
number draws (`RandStream`): seeding with seed `s` yields the stream
`seedStream s`, and each primitive numpy call consumes stream positions in
the order the Python code makes its calls.  `seedStream` is a concrete
executable stand-in for the MT19937 stream: no theorem below depends on
its particular values, only on the fact that seeding is deterministic
(the same seed always yields the same stream).  Invariant theorems are
proved for every stream, hence for every seed and for every sequence of
raw draws.

Floating point draws that the Python code immediately truncates to
integers (`.astype(int)`, `int(...)`) are embedded as integer draws:
`asInt` decodes a raw draw into an arbitrary signed integer (a normal
variate truncated toward zero can be any integer), and the uniform ratio
`uniform(3.5, 5.5)` used for staff counts is discretized to tenths.
Quality scores are carried in tenths of the 1-5 scale for the same
reason.  `datetime` values are carried as integers counting seconds, so
`timedelta(days = d)` is `86400 * d`; `datetime.now()` is an explicit
`now` parameter of the embedding, and the incoming global numpy state is
an explicit `NpRandomState` parameter (which the code discards by
reseeding).
-/

/-- An infinite stream of raw nonnegative draws, standing for the numpy
global generator's successive outputs after seeding. -/
abbrev RandStream : Type := Nat → Nat

/-- Deterministic stream obtained by seeding: the executable stand-in for
numpy's MT19937 stream keyed by the seed. -/
def seedStream (seed : Nat) : RandStream :=
  fun i => (1103515245 * (seed + i) + 12345) % 2147483648

/-- The state of the numpy global generator at the moment a generator
function is invoked (the stream it would continue with and its position).
Both generator functions discard it by calling `np.random.seed(42)`. -/
structure NpRandomState where
  stream : RandStream
  pos : Nat

/-- Decode a raw draw into an arbitrary signed integer (surjectively):
stands for a real-valued draw truncated to an integer, which can in
principle land anywhere in ℤ. -/
def asInt (m : Nat) : Int :=
  if m % 2 = 0 then (m / 2 : Nat) else -((m / 2 : Nat) : Int) - 1

/-- Embedding of `np.clip(x, lo, hi)` on integers. -/
def clipI (x lo hi : Int) : Int :=
  if x < lo then lo else if hi < x then hi else x

/-- Embedding of `np.random.choice(l)` for one element: the draw at
position `p` selects an index into `l`. -/
def chooseList {α : Type} [Inhabited α] (σ : RandStream) (p : Nat) (l : List α) : α :=
  l.getD (σ p % l.length) default

/-- Embedding of `np.random.randint(lo, hi)`: a draw in `[lo, hi)`. -/
def randBetween (σ : RandStream) (p : Nat) (lo hi : Nat) : Nat :=
  lo + σ p % (hi - lo)

/-- Big-endian decimal digits, fuel-structured so that it reduces in the
kernel; the fuel argument is the number itself. -/
def decDigitsAux : Nat → Nat → List Nat
  | 0, _ => []
  | fuel + 1, m => if m = 0 then [] else m % 10 :: decDigitsAux fuel (m / 10)

/-- Little-endian decimal digits of `m` (empty for 0, as `Nat.digits`). -/
def decDigits (m : Nat) : List Nat := decDigitsAux m m

/-- Decimal character string of `m`, most significant digit first. -/
def decChars (m : Nat) : List Char := ((decDigits m).map Nat.digitChar).reverse

/-- Left-pad a digit string with zeros to width `w`: Python's `%0wd`. -/
def zfill (w : Nat) (l : List Char) : List Char :=
  List.replicate (w - l.length) '0' ++ l

/-- Embedding of the patient identifier format string `f"P{i:06d}"`. -/
def patientId (i : Nat) : String := String.mk ('P' :: zfill 6 (decChars i))

/-- Embedding of the hospital identifier format string `f"H{i:03d}"`. -/
def hospitalId (i : Nat) : String := String.mk ('H' :: zfill 3 (decChars i))

/-- The fixed 16-value diagnosis list of `generate_patient_data`. -/
def diagnosisList : List String :=
  ["Diabetes", "Heart Failure", "Pneumonia", "COPD",
   "Stroke", "Kidney Disease", "Cancer", "Hypertension",
   "Mental Health", "Surgery", "Infection", "Fracture",
   "Burn", "Obesity", "Injury", "Rehabilitation"]

/-- The diagnosis-conditional treatment pools: the if/elif chain of
`generate_patient_data` lines 54-85, whose final `else` branch is the
`Rehabilitation` pool. -/
def treatmentOptions (diagnosis : String) : List String :=
  if diagnosis = "Diabetes" then ["Insulin", "Metformin", "Lifestyle Changes"]
  else if diagnosis = "Heart Failure" then ["ACE Inhibitors", "Beta Blockers", "Diuretics"]
  else if diagnosis = "Pneumonia" then ["Antibiotics", "Respiratory Therapy", "Oxygen"]
  else if diagnosis = "COPD" then ["Bronchodilators", "Steroids", "Oxygen Therapy"]
  else if diagnosis = "Stroke" then ["Thrombolytics", "Anticoagulants", "Rehabilitation"]
  else if diagnosis = "Kidney Disease" then ["Dialysis", "Medication", "Dietary Changes"]
  else if diagnosis = "Cancer" then ["Chemotherapy", "Radiation", "Surgery"]
  else if diagnosis = "Hypertension" then ["ACE Inhibitors", "Diuretics", "Beta Blockers"]
  else if diagnosis = "Mental Health" then ["Psychotherapy", "Antidepressants", "Mood Stabilizers"]
  else if diagnosis = "Surgery" then ["Laparoscopic", "Open Surgery", "Minimally Invasive"]
  else if diagnosis = "Infection" then ["Antibiotics", "Antiviral", "Supportive Care"]
  else if diagnosis = "Fracture" then ["Cast", "Surgery", "Physical Therapy"]
  else if diagnosis = "Burn" then ["Wound Care", "Skin Grafts", "Pain Management"]
  else if diagnosis = "Obesity" then ["Diet Counseling", "Bariatric Surgery", "Exercise Program"]
  else if diagnosis = "Injury" then ["Emergency Care", "Surgery", "Rehabilitation"]
  else ["Physical Therapy", "Occupational Therapy", "Speech Therapy"]

/-- One row of the generated patient table.  Dates are integers counting
seconds (`timedelta(days = d)` is `86400 * d`); `readmitted` is the 0/1
integer the code generates for database compatibility. -/
structure PatientRow where
  patient_id : String
  hospital_id : String
  age : Int
  gender : String
  diagnosis : String
  treatment : String
  admission_date : Int
  discharge_date : Int
  length_of_stay : Int
  readmitted : Nat
  days_to_readmission : Option Int
  insurance_type : String
deriving Repr, DecidableEq

/-- Number of readmitted patients among the first `i` rows: determines
how many draws the `readmission_days` loop has consumed before row `i`
(the loop draws only for readmitted rows). -/
def countReadmitted (σ : RandStream) (n i : Nat) : Nat :=
  (List.range i).countP (fun j => chooseList σ (7 * n + j) [1, 0] == 1)

/-- Row `i` (zero-based) of the patient table, with the stream positions
laid out in the order the Python code makes its numpy calls: ages occupy
positions `0..n-1`, genders `n..2n-1`, hospital assignments `2n..3n-1`,
diagnoses `3n..4n-1`, the treatment loop `4n..5n-1`, lengths of stay
`5n..6n-1`, the date loop `6n..7n-1`, readmission flags `7n..8n-1`, the
readmission-days loop from `8n` (one draw per readmitted row only), and
the insurance draws after it. -/
def mkPatientRow (σ : RandStream) (n : Nat) (now : Int) (i : Nat) : PatientRow :=
  let diag := chooseList σ (3 * n + i) diagnosisList
  let stay := clipI (σ (5 * n + i) : Nat) 1 30
  let daysBack := randBetween σ (6 * n + i) 1 365
  let discharge := now - 86400 * (daysBack : Int)
  let readmitFlag := chooseList σ (7 * n + i) [1, 0]
  { patient_id := patientId (i + 1)
    hospital_id := chooseList σ (2 * n + i) ((List.range 20).map (fun j => hospitalId (j + 1)))
    age := clipI (asInt (σ i)) 18 95
    gender := chooseList σ (n + i) ["M", "F"]
    diagnosis := diag
    treatment := chooseList σ (4 * n + i) (treatmentOptions diag)
    admission_date := discharge - 86400 * stay
    discharge_date := discharge
    length_of_stay := stay
    readmitted := readmitFlag
    days_to_readmission :=
      if readmitFlag = 1
      then some ((randBetween σ (8 * n + countReadmitted σ n i) 1 31 : Nat) : Int)
      else none
    insurance_type :=
      chooseList σ (8 * n + countReadmitted σ n n + i)
        ["Medicare", "Medicaid", "Private", "Uninsured"] }

/-- The patient table produced from a given seeded stream: what
`generate_patient_data` computes after `np.random.seed(42)` has pinned
the stream. -/
def patientTable (σ : RandStream) (n : Nat) (now : Int) : List PatientRow :=
  (List.range n).map (mkPatientRow σ n now)

/-- Embedding of `generate_patient_data(num_records)`.  The incoming
global generator state `g` is discarded by `np.random.seed(42)`; `now`
is the value of `datetime.now()` at the call. -/
def generate_patient_data (num_records : Nat) (now : Int) (g : NpRandomState) : List PatientRow :=
  patientTable (seedStream 42) num_records now

/-- The fixed 50-name hospital name pool of `generate_hospital_data`. -/
def hospitalNamePool : List String :=
  ["Memorial Hospital", "University Medical Center", "Community Hospital",
   "Regional Medical Center", "General Hospital", "St. Mary's Hospital",
   "Mercy Medical Center", "County Hospital", "Metropolitan Hospital",
   "Sacred Heart Hospital", "Providence Hospital", "Hope Medical Center",
   "Valley Hospital", "Riverside Medical Center", "Central Hospital",
   "Highland Hospital", "Lakeside Medical Center", "Summit Hospital",
   "Oakwood Hospital", "Pinecrest Medical Center", "Northside Hospital",
   "Southside Medical Center", "Eastside Hospital", "Westside Medical Center",
   "City General Hospital", "Suburban Medical Center", "Downtown Hospital",
   "Uptown Medical Center", "Midtown Hospital", "Crossroads Medical Center",
   "Parkview Hospital", "Hillcrest Medical Center", "Greenwood Hospital",
   "Fairview Medical Center", "Sunset Hospital", "Sunrise Medical Center",
   "Mountain View Hospital", "Ocean View Medical Center", "Forest Hills Hospital",
   "Garden City Medical Center", "Spring Valley Hospital", "Winter Park Medical Center",
   "Autumn Ridge Hospital", "Summer Heights Medical Center", "Crystal Lake Hospital",
   "Golden Gate Medical Center", "Silver Creek Hospital", "Diamond Valley Medical Center",
   "Emerald City Hospital", "Ruby Ridge Medical Center"]

/-- The fixed 20-value specialty pool of `generate_hospital_data`. -/
def specialtyPool : List String :=
  ["Cardiology", "Oncology", "Neurology", "Orthopedics",
   "Pediatrics", "Geriatrics", "Pulmonology", "Gastroenterology",
   "Endocrinology", "Psychiatry", "Emergency Medicine", "Surgery",
   "Infectious Disease", "Trauma Care", "Burn Unit", "Bariatric Surgery",
   "Rehabilitation", "Physical Therapy", "Mental Health", "Pain Management"]

/-- The five-region pool. -/
def regionPool : List String :=
  ["Northeast", "Southeast", "Midwest", "Southwest", "West"]

/-- The three facility types. -/
def hospitalTypePool : List String := ["Urban", "Suburban", "Rural"]

/-- Embedding of `np.random.choice(pool, size = k, replace = False)`:
draws `k` elements without replacement, one stream position per element,
and fails (as numpy raises `ValueError`) when the pool has fewer than `k`
elements left, never truncating silently. -/
def sampleNoReplace {α : Type} [Inhabited α] (σ : RandStream) :
    Nat → Nat → List α → Option (List α)
  | _, 0, _ => some []
  | p, k + 1, pool =>
    if pool.length = 0 then none
    else
      match sampleNoReplace σ (p + 1) k (pool.eraseIdx (σ p % pool.length)) with
      | none => none
      | some rest => some (pool.getD (σ p % pool.length) default :: rest)

/-- Bed count draw: the three-way branch on facility type (Urban
`randint(300, 800)`, Suburban `randint(150, 400)`, Rural
`randint(50, 200)`). -/
def bedCount (σ : RandStream) (p : Nat) (hospitalType : String) : Nat :=
  if hospitalType = "Urban" then randBetween σ p 300 800
  else if hospitalType = "Suburban" then randBetween σ p 150 400
  else randBetween σ p 50 200

/-- Staff count: `int(beds * np.random.uniform(3.5, 5.5))`, with the
continuous ratio discretized to tenths in `[3.5, 5.5]` (no verified
property depends on the ratio's distribution, only on determinism). -/
def staffCount (σ : RandStream) (p : Nat) (beds : Nat) : Nat :=
  beds * (35 + σ p % 21) / 10

/-- The per-hospital specialty loop: for each of `m` hospitals, one draw
for `num_specialties = randint(3, 8)` followed by a without-replacement
sample of that size from the 20-value pool, joined with a comma; stream
positions are threaded in call order. -/
def specialtiesFrom (σ : RandStream) : Nat → Nat → Option (List String)
  | _, 0 => some []
  | p, m + 1 =>
    match sampleNoReplace σ (p + 1) (randBetween σ p 3 8) specialtyPool with
    | none => none
    | some l =>
      match specialtiesFrom σ (p + 1 + randBetween σ p 3 8) m with
      | none => none
      | some rest => some (String.intercalate ", " l :: rest)

/-- One row of the generated hospital table.  `is_teaching_hospital` is
the 0/1 integer the code generates; `quality_score` is carried in tenths
of the 1-5 scale (the code's one-decimal rounding). -/
structure HospitalRow where
  hospital_id : String
  hospital_name : String
  region : String
  hospital_type : String
  bed_count : Nat
  staff_count : Nat
  is_teaching_hospital : Nat
  quality_score : Int
  specialties : String
deriving Repr, DecidableEq

/-- Row `i` (zero-based) of the hospital table, given the name sample and
the specialty strings; stream positions follow the code's call order:
names `0..n-1`, regions `n..2n-1`, types `2n..3n-1`, the bed loop
`3n..4n-1`, the staff loop `4n..5n-1`, teaching flags `5n..6n-1`,
quality scores `6n..7n-1`, the specialty loop from `7n`. -/
def mkHospitalRow (σ : RandStream) (n : Nat) (names specs : List String) (i : Nat) :
    HospitalRow :=
  let hospitalType := chooseList σ (2 * n + i) hospitalTypePool
  let beds := bedCount σ (3 * n + i) hospitalType
  { hospital_id := hospitalId (i + 1)
    hospital_name := names.getD i ""
    region := chooseList σ (n + i) regionPool
    hospital_type := hospitalType
    bed_count := beds
    staff_count := staffCount σ (4 * n + i) beds
    is_teaching_hospital := chooseList σ (5 * n + i) [1, 0]
    quality_score := clipI (asInt (σ (6 * n + i))) 10 50
    specialties := specs.getD i "" }

/-- The hospital table produced from a given seeded stream: fails exactly
when a without-replacement sample asks for more elements than its pool
holds (numpy's `ValueError`). -/
def hospitalTable (σ : RandStream) (n : Nat) : Except String (List HospitalRow) :=
  match sampleNoReplace σ 0 n hospitalNamePool with
  | none => Except.error "Cannot take a larger sample than population when replace is False"
  | some names =>
    match specialtiesFrom σ (7 * n) n with
    | none => Except.error "Cannot take a larger sample than population when replace is False"
    | some specs => Except.ok ((List.range n).map (mkHospitalRow σ n names specs))

/-- Embedding of `generate_hospital_data(num_hospitals)`.  The incoming
global generator state `g` is discarded by `np.random.seed(42)`. -/
def generate_hospital_data (num_hospitals : Nat) (g : NpRandomState) :
    Except String (List HospitalRow) :=
  hospitalTable (seedStream 42) num_hospitals

/-- Schema constraints a SQLite table can carry: an optional primary key
column and declared foreign keys (column, referenced table). -/
structure TableSchema where
  primaryKey : Option String
  foreignKeys : List (String × String)
deriving Repr, DecidableEq

/-- The `patients` schema declared by `create_database`:
`patient_id TEXT PRIMARY KEY` and
`FOREIGN KEY (hospital_id) REFERENCES hospitals(hospital_id)`. -/
def patientsDeclaredSchema : TableSchema :=
  { primaryKey := some "patient_id", foreignKeys := [("hospital_id", "hospitals")] }

/-- The `hospitals` schema declared by `create_database`:
`hospital_id TEXT PRIMARY KEY`, no foreign keys. -/
def hospitalsDeclaredSchema : TableSchema :=
  { primaryKey := some "hospital_id", foreignKeys := [] }

/-- The schema pandas `to_sql` creates from a DataFrame: column types
only, no primary key and no foreign keys. -/
def pandasSchema : TableSchema := { primaryKey := none, foreignKeys := [] }

/-- A SQLite table: its current schema and rows. -/
structure SqlTable (ρ : Type) where
  schema : TableSchema
  rows : List ρ
deriving Repr, DecidableEq

/-- The two-table store; `none` means the table does not exist yet. -/
structure Database where
  patients : Option (SqlTable PatientRow)
  hospitals : Option (SqlTable HospitalRow)

/-- A store in which neither table has been created. -/
def emptyDatabase : Database := { patients := none, hospitals := none }

/-- Embedding of `create_database`: `CREATE TABLE IF NOT EXISTS` for both
tables, with the declared primary/foreign key constraints; existing
tables are left untouched. -/
def create_database (db : Database) : Database :=
  { patients := some (db.patients.getD { schema := patientsDeclaredSchema, rows := [] })
    hospitals := some (db.hospitals.getD { schema := hospitalsDeclaredSchema, rows := [] }) }

/-- Embedding of pandas `DataFrame.to_sql(..., if_exists = 'replace')`:
the existing table (whatever its schema and rows) is dropped and a fresh
unconstrained table holding exactly the frame's rows is created. -/
def toSqlReplace {ρ : Type} (rows : List ρ) (old : Option (SqlTable ρ)) : SqlTable ρ :=
  { schema := pandasSchema, rows := rows }

/-- Embedding of `load_data_to_db`: `create_database`, then replace the
`patients` table, then the `hospitals` table.  The `astype(int)`
conversions are identities here because the embedded rows already carry
the 0/1 integers the generators produce. -/
def load_data_to_db (patient_data : List PatientRow) (hospital_data : List HospitalRow)
    (db : Database) : Database :=
  let db1 := create_database db
  let db2 := { db1 with patients := some (toSqlReplace patient_data db1.patients) }
  { db2 with hospitals := some (toSqlReplace hospital_data db2.hospitals) }

/-- Embedding of `SELECT COUNT(*) FROM hospitals` through
`execute_query`: the row count of the `hospitals` table (0 rows come back
for a missing table only in the sense that the query would error; all
uses below query a store on which the table exists). -/
def countHospitals (db : Database) : Nat :=
  match db.hospitals with
  | some t => t.rows.length
  | none => 0

/-- Decode a decimal character back to its digit value. -/
def charDigit (c : Char) : Nat := c.toNat - 48

/-- Decode a big-endian decimal character string. -/
def decodeDigits (l : List Char) : Nat := Nat.ofDigits 10 ((l.map charDigit).reverse)

/-- The clock-independent projection of a patient row: every generated
column except the two date columns. -/
def stripPatientClock (r : PatientRow) :
    String × String × Int × String × String × String × Int × Nat × Option Int × String :=
  (r.patient_id, r.hospital_id, r.age, r.gender, r.diagnosis, r.treatment,
   r.length_of_stay, r.readmitted, r.days_to_readmission, r.insurance_type)

/-- A one-element `choice` from a nonempty list lands in the list. -/
lemma chooseList_mem {α : Type} [Inhabited α] (σ : RandStream) (p : Nat) (l : List α)
    (h : l ≠ []) : chooseList σ p l ∈ l := by
  have hlen : 0 < l.length := List.length_pos.mpr h
  have hidx : σ p % l.length < l.length := Nat.mod_lt _ hlen
  rw [chooseList, List.getD_eq_getElem l default hidx]
  exact List.getElem_mem hidx

/-- The clip lower bound holds when the interval is proper. -/
lemma le_clipI (x lo hi : Int) (h : lo ≤ hi) : lo ≤ clipI x lo hi := by
  unfold clipI; split_ifs <;> omega

/-- The clip upper bound holds when the interval is proper. -/
lemma clipI_le (x lo hi : Int) (h : lo ≤ hi) : clipI x lo hi ≤ hi := by
  unfold clipI; split_ifs <;> omega

/-- Case analysis principle for an if-branch: a property holding on both
branches holds on the conditional. -/
lemma ite_p {c : Prop} [Decidable c] {α : Sort _} {P : α → Prop} {x y : α}
    (hx : P x) (hy : P y) : P (if c then x else y) := by
  split <;> assumption

/-- Every branch of the treatment if/elif chain is a pool of exactly
three distinct treatments. -/
lemma treatmentOptions_spec (d : String) :
    (treatmentOptions d).length = 3 ∧ (treatmentOptions d).Nodup := by
  unfold treatmentOptions
  repeat' refine ite_p (P := fun l : List String => l.length = 3 ∧ l.Nodup) ?_ ?_
  all_goals exact ⟨rfl, by decide⟩

/-- Every diagnosis has a nonempty treatment pool. -/
lemma treatmentOptions_ne_nil (d : String) : treatmentOptions d ≠ [] := by
  have h := (treatmentOptions_spec d).1
  intro hnil
  rw [hnil] at h
  simp at h

/-- The fuel-structured digit function agrees with `Nat.digits` in base
ten once the fuel covers the number. -/
lemma decDigitsAux_eq (fuel : Nat) :
    ∀ m, m ≤ fuel → decDigitsAux fuel m = Nat.digits 10 m := by
  induction fuel with
  | zero =>
    intro m h
    have hm : m = 0 := by omega
    subst hm
    simp [decDigitsAux]
  | succ fuel ih =>
    intro m h
    by_cases hm : m = 0
    · subst hm; simp [decDigitsAux]
    · have hpos : 0 < m := Nat.pos_of_ne_zero hm
      have hdiv : m / 10 ≤ fuel := by
        have : m / 10 < m := Nat.div_lt_self hpos (by norm_num)
        omega
      rw [decDigitsAux, if_neg hm, ih _ hdiv,
        ← Nat.digits_def' (by norm_num : (1 : Nat) < 10) hpos]

/-- `decDigits` is `Nat.digits 10`. -/
lemma decDigits_eq (m : Nat) : decDigits m = Nat.digits 10 m :=
  decDigitsAux_eq m m le_rfl

/-- Decoding inverts `Nat.digitChar` on single digits. -/
lemma charDigit_digitChar (d : Nat) (h : d < 10) : charDigit (Nat.digitChar d) = d := by
  interval_cases d <;> rfl

/-- A run of zero digits contributes nothing. -/
lemma ofDigits_replicate_zero (b k : Nat) : Nat.ofDigits b (List.replicate k 0) = 0 := by
  induction k with
  | zero => rfl
  | succ k ih => simp [List.replicate_succ, Nat.ofDigits_cons, ih]

/-- Zero-padded decimal printing decodes back to the number: leading
zeros are value-free. -/
lemma decodeDigits_zfill (w m : Nat) : decodeDigits (zfill w (decChars m)) = m := by
  have hmap : (decChars m).map charDigit = (Nat.digits 10 m).reverse := by
    unfold decChars
    rw [decDigits_eq, List.map_reverse, List.map_map]
    have hcongr : (Nat.digits 10 m).map (charDigit ∘ Nat.digitChar)
        = (Nat.digits 10 m).map id := by
      apply List.map_congr_left
      intro a ha
      exact charDigit_digitChar a (Nat.digits_lt_base (by norm_num) ha)
    rw [hcongr, List.map_id]
  unfold decodeDigits zfill
  rw [List.map_append, List.map_replicate, hmap]
  have h0 : charDigit '0' = 0 := rfl
  rw [h0, List.reverse_append, List.reverse_reverse, List.reverse_replicate,
    Nat.ofDigits_append, Nat.ofDigits_digits, ofDigits_replicate_zero]
  ring

/-- Patient identifiers are injective: the padded decimal tail recovers
the index. -/
lemma patientId_injective : Function.Injective patientId := by
  intro a b h
  unfold patientId at h
  injection h with hdata
  injection hdata with hhead htail
  calc a = decodeDigits (zfill 6 (decChars a)) := (decodeDigits_zfill 6 a).symm
    _ = decodeDigits (zfill 6 (decChars b)) := by rw [htail]
    _ = b := decodeDigits_zfill 6 b

/-- Membership in the patient table comes from a row index. -/
lemma mem_patientTable {σ : RandStream} {n : Nat} {now : Int} {r : PatientRow}
    (h : r ∈ patientTable σ n now) : ∃ i, i < n ∧ r = mkPatientRow σ n now i := by
  unfold patientTable at h
  rcases List.mem_map.mp h with ⟨i, hi, rfl⟩
  exact ⟨i, List.mem_range.mp hi, rfl⟩

/-- Row-level clamp bounds: age in `[18, 95]`, stay in `[1, 30]`, for
every stream, row and clock. -/
lemma mkPatientRow_clamps (σ : RandStream) (n : Nat) (now : Int) (i : Nat) :
    18 ≤ (mkPatientRow σ n now i).age ∧ (mkPatientRow σ n now i).age ≤ 95 ∧
    1 ≤ (mkPatientRow σ n now i).length_of_stay ∧
    (mkPatientRow σ n now i).length_of_stay ≤ 30 :=
  ⟨le_clipI _ _ _ (by norm_num), clipI_le _ _ _ (by norm_num),
   le_clipI _ _ _ (by norm_num), clipI_le _ _ _ (by norm_num)⟩

/-- Row-level date arithmetic: the admission date is the discharge date
minus the stay, and the stay is positive. -/
lemma mkPatientRow_dates (σ : RandStream) (n : Nat) (now : Int) (i : Nat) :
    (mkPatientRow σ n now i).admission_date < (mkPatientRow σ n now i).discharge_date ∧
    (mkPatientRow σ n now i).discharge_date - (mkPatientRow σ n now i).admission_date
      = 86400 * (mkPatientRow σ n now i).length_of_stay := by
  have h1 : 1 ≤ (mkPatientRow σ n now i).length_of_stay := le_clipI _ _ _ (by norm_num)
  have h2 : (mkPatientRow σ n now i).admission_date
      = (mkPatientRow σ n now i).discharge_date
        - 86400 * (mkPatientRow σ n now i).length_of_stay := rfl
  omega

/-- Row-level readmission invariant: the days field is present exactly
for the readmitted flag value 1, and then lies in `[1, 30]`. -/
lemma mkPatientRow_readmission (σ : RandStream) (n : Nat) (now : Int) (i : Nat) :
    ((mkPatientRow σ n now i).days_to_readmission.isSome
        ↔ (mkPatientRow σ n now i).readmitted = 1) ∧
    ∀ v, (mkPatientRow σ n now i).days_to_readmission = some v → 1 ≤ v ∧ v ≤ 30 := by
  have hread : (mkPatientRow σ n now i).readmitted = chooseList σ (7 * n + i) [1, 0] := rfl
  have hdays : (mkPatientRow σ n now i).days_to_readmission
      = if chooseList σ (7 * n + i) [1, 0] = 1
        then some ((randBetween σ (8 * n + countReadmitted σ n i) 1 31 : Nat) : Int)
        else none := rfl
  rw [hread, hdays]
  by_cases h : chooseList σ (7 * n + i) [1, 0] = 1
  · rw [if_pos h]
    refine ⟨by simp [h], ?_⟩
    intro v hv
    have hv2 : v = ((randBetween σ (8 * n + countReadmitted σ n i) 1 31 : Nat) : Int) :=
      (Option.some.injEq _ _ ▸ hv).symm
    have hmod : σ (8 * n + countReadmitted σ n i) % (31 - 1) < 30 :=
      Nat.mod_lt _ (by norm_num)
    rw [hv2]
    unfold randBetween
    omega
  · rw [if_neg h]
    exact ⟨by simp [h], fun v hv => by simp at hv⟩

/-- Row-level diagnosis/treatment invariant: the diagnosis comes from the
fixed list and the treatment from that diagnosis's pool. -/
lemma mkPatientRow_treatment (σ : RandStream) (n : Nat) (now : Int) (i : Nat) :
    (mkPatientRow σ n now i).diagnosis ∈ diagnosisList ∧
    (mkPatientRow σ n now i).treatment
      ∈ treatmentOptions (mkPatientRow σ n now i).diagnosis :=
  ⟨chooseList_mem σ (3 * n + i) diagnosisList (by simp [diagnosisList]),
   chooseList_mem σ (4 * n + i) _ (treatmentOptions_ne_nil _)⟩

/-- A without-replacement sample that asks for more elements than the
pool holds fails (numpy raises), it never truncates. -/
lemma sampleNoReplace_overflow {α : Type} [Inhabited α] (σ : RandStream) :
    ∀ (k p : Nat) (pool : List α), pool.length < k → sampleNoReplace σ p k pool = none := by
  intro k
  induction k with
  | zero => intro p pool h; omega
  | succ k ih =>
    intro p pool h
    unfold sampleNoReplace
    by_cases hnil : pool.length = 0
    · rw [if_pos hnil]
    · rw [if_neg hnil]
      have hidx : σ p % pool.length < pool.length := Nat.mod_lt _ (Nat.pos_of_ne_zero hnil)
      have hlt : (pool.eraseIdx (σ p % pool.length)).length < k := by
        have := List.length_eraseIdx_add_one hidx
        omega
      rw [ih _ _ hlt]

/-- A without-replacement sample that fits in the pool succeeds and has
exactly the requested size. -/
lemma sampleNoReplace_length {α : Type} [Inhabited α] (σ : RandStream) :
    ∀ (k p : Nat) (pool : List α), k ≤ pool.length →
      ∃ l, sampleNoReplace σ p k pool = some l ∧ l.length = k := by
  intro k
  induction k with
  | zero => intro p pool h; exact ⟨[], rfl, rfl⟩
  | succ k ih =>
    intro p pool h
    have hnil : ¬ pool.length = 0 := by omega
    have hidx : σ p % pool.length < pool.length := Nat.mod_lt _ (Nat.pos_of_ne_zero hnil)
    have hlen : k ≤ (pool.eraseIdx (σ p % pool.length)).length := by
      have := List.length_eraseIdx_add_one hidx
      omega
    rcases ih (p + 1) _ hlen with ⟨l, hl, hlk⟩
    refine ⟨pool.getD (σ p % pool.length) default :: l, ?_, by simp [hlk]⟩
    unfold sampleNoReplace
    rw [if_neg hnil, hl]

/-- The per-hospital specialty loop always succeeds: it asks for at most
7 distinct specialties out of the 20 in the pool. -/
lemma specialtiesFrom_length (σ : RandStream) :
    ∀ (m p : Nat), ∃ l, specialtiesFrom σ p m = some l ∧ l.length = m := by
  intro m
  induction m with
  | zero => intro p; exact ⟨[], rfl, rfl⟩
  | succ m ih =>
    intro p
    have hk : randBetween σ p 3 8 ≤ specialtyPool.length := by
      have h20 : specialtyPool.length = 20 := rfl
      unfold randBetween
      omega
    rcases sampleNoReplace_length σ (randBetween σ p 3 8) (p + 1) specialtyPool hk with
      ⟨l, hl, _⟩
    rcases ih (p + 1 + randBetween σ p 3 8) with ⟨rest, hrest, hrl⟩
    refine ⟨String.intercalate ", " l :: rest, ?_, by simp [hrl]⟩
    unfold specialtiesFrom
    rw [hl, hrest]

/-- Asking for more hospitals than the 50-name pool holds makes the
hospital generator fail fast. -/
lemma hospitalTable_overflow (σ : RandStream) (n : Nat) (h : 50 < n) :
    hospitalTable σ n
      = Except.error "Cannot take a larger sample than population when replace is False" := by
  have h50 : hospitalNamePool.length = 50 := rfl
  unfold hospitalTable
  rw [sampleNoReplace_overflow σ n 0 hospitalNamePool (by omega)]

/-- Asking for at most 50 hospitals succeeds, with exactly the requested
number of rows. -/
lemma hospitalTable_ok (σ : RandStream) (n : Nat) (h : n ≤ 50) :
    ∃ t, hospitalTable σ n = Except.ok t ∧ t.length = n := by
  have h50 : hospitalNamePool.length = 50 := rfl
  rcases sampleNoReplace_length σ n 0 hospitalNamePool (by omega) with ⟨names, hn, _⟩
  rcases specialtiesFrom_length σ n (7 * n) with ⟨specs, hs, _⟩
  refine ⟨(List.range n).map (mkHospitalRow σ n names specs), ?_, by simp⟩
  unfold hospitalTable
  rw [hn, hs]

/-- C4: every patient record produced by `generate_patient_data` carries
a treatment drawn from the pool of exactly 3 distinct treatments mapped
to that record's diagnosis (for Diabetes the pool is Insulin, Metformin,
Lifestyle Changes), and this holds for every diagnosis of the fixed
16-value diagnosis list. -/
theorem treatment_matches_diagnosis (n : Nat) (now : Int) (g : NpRandomState) :
    (∀ r ∈ generate_patient_data n now g,
        r.diagnosis ∈ diagnosisList ∧ r.treatment ∈ treatmentOptions r.diagnosis) ∧
    diagnosisList.length = 16 ∧
    (∀ d, (treatmentOptions d).length = 3 ∧ (treatmentOptions d).Nodup) ∧
    treatmentOptions "Diabetes" = ["Insulin", "Metformin", "Lifestyle Changes"] := by
  refine ⟨?_, rfl, treatmentOptions_spec, by decide⟩
  intro r hr
  rcases mem_patientTable hr with ⟨i, _, rfl⟩
  exact mkPatientRow_treatment _ n now i

/-- C4 witness: the theorem instantiated at one generated record. -/
theorem treatment_matches_diagnosis_witness :
    (mkPatientRow (seedStream 42) 1 0 0).diagnosis ∈ diagnosisList ∧
    (mkPatientRow (seedStream 42) 1 0 0).treatment
      ∈ treatmentOptions (mkPatientRow (seedStream 42) 1 0 0).diagnosis :=
  (treatment_matches_diagnosis 1 0 { stream := seedStream 0, pos := 0 }).1
    (mkPatientRow (seedStream 42) 1 0 0) (by decide)

/-- C5: in every record produced by `generate_patient_data`,
`days_to_readmission` is non-null exactly when `readmitted = 1`, and a
non-null value is an integer in `[1, 30]`. -/
theorem readmission_days_iff_readmitted (n : Nat) (now : Int) (g : NpRandomState) :
    ∀ r ∈ generate_patient_data n now g,
      (r.days_to_readmission.isSome ↔ r.readmitted = 1) ∧
      ∀ v, r.days_to_readmission = some v → 1 ≤ v ∧ v ≤ 30 := by
  intro r hr
  rcases mem_patientTable hr with ⟨i, _, rfl⟩
  exact mkPatientRow_readmission _ n now i

/-- C5 witness: the theorem instantiated at one generated record. -/
theorem readmission_days_iff_readmitted_witness :
    ((mkPatientRow (seedStream 42) 1 0 0).days_to_readmission.isSome
        ↔ (mkPatientRow (seedStream 42) 1 0 0).readmitted = 1) ∧
    ∀ v, (mkPatientRow (seedStream 42) 1 0 0).days_to_readmission = some v →
      1 ≤ v ∧ v ≤ 30 :=
  readmission_days_iff_readmitted 1 0 { stream := seedStream 0, pos := 0 }
    (mkPatientRow (seedStream 42) 1 0 0) (by decide)

/-- C6: in every record produced by `generate_patient_data`, the
admission date strictly precedes the discharge date and their difference
is exactly `length_of_stay` days (dates are embedded in seconds, so a
day is 86400). -/
theorem admission_before_discharge (n : Nat) (now : Int) (g : NpRandomState) :
    ∀ r ∈ generate_patient_data n now g,
      r.admission_date < r.discharge_date ∧
      r.discharge_date - r.admission_date = 86400 * r.length_of_stay := by
  intro r hr
  rcases mem_patientTable hr with ⟨i, _, rfl⟩
  exact mkPatientRow_dates _ n now i

/-- C6 witness: the theorem instantiated at one generated record. -/
theorem admission_before_discharge_witness :
    (mkPatientRow (seedStream 42) 1 0 0).admission_date
        < (mkPatientRow (seedStream 42) 1 0 0).discharge_date ∧
    (mkPatientRow (seedStream 42) 1 0 0).discharge_date
        - (mkPatientRow (seedStream 42) 1 0 0).admission_date
      = 86400 * (mkPatientRow (seedStream 42) 1 0 0).length_of_stay :=
  admission_before_discharge 1 0 { stream := seedStream 0, pos := 0 }
    (mkPatientRow (seedStream 42) 1 0 0) (by decide)

/-- C7: for every stream of raw draws (hence every seed), every record
of the patient table satisfies the clamps age in `[18, 95]` and
`length_of_stay` in `[1, 30]`; `generate_patient_data n now g` is
`patientTable (seedStream 42) n now`, so its records are covered. -/
theorem age_and_stay_clamped (σ : RandStream) (n : Nat) (now : Int) :
    ∀ r ∈ patientTable σ n now,
      18 ≤ r.age ∧ r.age ≤ 95 ∧ 1 ≤ r.length_of_stay ∧ r.length_of_stay ≤ 30 := by
  intro r hr
  rcases mem_patientTable hr with ⟨i, _, rfl⟩
  exact mkPatientRow_clamps σ n now i

/-- C7 witness: the theorem instantiated at one generated record. -/
theorem age_and_stay_clamped_witness :
    18 ≤ (mkPatientRow (seedStream 42) 1 0 0).age ∧
    (mkPatientRow (seedStream 42) 1 0 0).age ≤ 95 ∧
    1 ≤ (mkPatientRow (seedStream 42) 1 0 0).length_of_stay ∧
    (mkPatientRow (seedStream 42) 1 0 0).length_of_stay ≤ 30 :=
  age_and_stay_clamped (seedStream 42) 1 0 (mkPatientRow (seedStream 42) 1 0 0) (by decide)

/-- C8: for every requested count `n`, the patient table has exactly `n`
rows, its identifiers are exactly `patientId 1, ..., patientId n` in
order (the sequential `P%06d` pattern starting at 1, witnessed by
`patientId 1 = "P000001"`), and they are pairwise distinct. -/
theorem patient_ids_sequential_unique (n : Nat) (now : Int) (g : NpRandomState) :
    (generate_patient_data n now g).length = n ∧
    (generate_patient_data n now g).map (fun r => r.patient_id)
      = (List.range n).map (fun i => patientId (i + 1)) ∧
    ((generate_patient_data n now g).map (fun r => r.patient_id)).Nodup ∧
    patientId 1 = "P000001" ∧ patientId 2 = "P000002" := by
  have hmap : (generate_patient_data n now g).map (fun r => r.patient_id)
      = (List.range n).map (fun i => patientId (i + 1)) := by
    unfold generate_patient_data patientTable
    rw [List.map_map]
    congr 1
  refine ⟨?_, hmap, ?_, by decide, by decide⟩
  · unfold generate_patient_data patientTable
    simp
  · rw [hmap]
    refine List.Nodup.map ?_ (List.nodup_range n)
    intro a b h
    have := patientId_injective h
    omega

/-- C1 counterexample: two invocations of `generate_patient_data` with
the same `num_records` (and even the same incoming generator state) made
at different wall-clock times produce different tables, because the date
columns are anchored to `datetime.now()`; the claim's "identical patient
tables (every column equal row-for-row)" fails at `num_records = 1` for
invocation times 0 and 86400 seconds. -/
theorem patient_generation_not_time_invariant :
    generate_patient_data 1 0 { stream := seedStream 7, pos := 3 }
      ≠ generate_patient_data 1 86400 { stream := seedStream 7, pos := 3 } := by
  decide

/-- C1 amended: for the fixed internal seed, each generator call is
deterministic up to the wall clock: `generate_patient_data` is
independent of the incoming generator state (the reseed discards it) and
two invocations with the same `num_records` and the same `datetime.now()`
value agree on every column; across different invocation times every
column except `admission_date` and `discharge_date` still agrees
row-for-row; and `generate_hospital_data` with the same `num_hospitals`
produces identical tables unconditionally. -/
theorem generators_deterministic_up_to_clock :
    (∀ (n : Nat) (now : Int) (g1 g2 : NpRandomState),
        generate_patient_data n now g1 = generate_patient_data n now g2) ∧
    (∀ (n : Nat) (t1 t2 : Int) (g1 g2 : NpRandomState),
        (generate_patient_data n t1 g1).map stripPatientClock
          = (generate_patient_data n t2 g2).map stripPatientClock) ∧
    (∀ (n : Nat) (g1 g2 : NpRandomState),
        generate_hospital_data n g1 = generate_hospital_data n g2) := by
  refine ⟨fun n now g1 g2 => rfl, ?_, fun n g1 g2 => rfl⟩
  intro n t1 t2 g1 g2
  unfold generate_patient_data patientTable
  rw [List.map_map, List.map_map]
  congr 1

/-- C2: loading replaces rather than appends. Generating hospitals with
count 5 and loading them into a fresh store leaves
`SELECT COUNT(*) FROM hospitals` equal to 5, and re-running
`load_data_to_db` on any prior store state with a hospital table of any
size leaves exactly the new row count, never the sum of old and new. -/
theorem load_replaces_hospital_rows (g : NpRandomState) (db : Database)
    (patient_data : List PatientRow) (hospital_data : List HospitalRow) :
    (∃ t, generate_hospital_data 5 g = Except.ok t ∧
        countHospitals (load_data_to_db patient_data t emptyDatabase) = 5) ∧
    countHospitals (load_data_to_db patient_data hospital_data db)
      = hospital_data.length := by
  constructor
  · rcases hospitalTable_ok (seedStream 42) 5 (by norm_num) with ⟨t, ht, htl⟩
    exact ⟨t, ht, htl⟩
  · rfl

/-- C9: `generate_hospital_data` fails fast on pool exhaustion. For
every count over the 50-name pool the call returns the numpy error
rather than truncating; for counts within the pool it succeeds with
exactly the requested number of records (in particular the internal
specialty samples of size 3 to 7 never exhaust the 20-value pool); and a
without-replacement sample asked for more distinct elements than its
pool contains always fails, never truncates. -/
theorem hospital_pool_exhaustion_fails_fast (n : Nat) (g : NpRandomState) :
    (50 < n → ∃ e, generate_hospital_data n g = Except.error e) ∧
    (n ≤ 50 → ∃ t, generate_hospital_data n g = Except.ok t ∧ t.length = n) ∧
    (∀ (σ : RandStream) (p k : Nat) (pool : List String), pool.length < k →
        sampleNoReplace σ p k pool = none) := by
  refine ⟨?_, ?_, fun σ p k pool h => sampleNoReplace_overflow σ k p pool h⟩
  · intro h
    exact ⟨_, hospitalTable_overflow (seedStream 42) n h⟩
  · intro h
    exact hospitalTable_ok (seedStream 42) n h

/-- C9 witness: the theorem instantiated at counts 51 (fails) and 3
(succeeds in full), and at a sampler call exceeding its pool. -/
theorem hospital_pool_exhaustion_fails_fast_witness :
    (∃ e, generate_hospital_data 51 { stream := seedStream 0, pos := 0 }
        = Except.error e) ∧
    (∃ t, generate_hospital_data 3 { stream := seedStream 0, pos := 0 }
        = Except.ok t ∧ t.length = 3) ∧
    sampleNoReplace (seedStream 0) 0 2 ["Cardiology"] = none :=
  ⟨(hospital_pool_exhaustion_fails_fast 51 { stream := seedStream 0, pos := 0 }).1
      (by norm_num),
   (hospital_pool_exhaustion_fails_fast 3 { stream := seedStream 0, pos := 0 }).2.1
      (by norm_num),
   (hospital_pool_exhaustion_fails_fast 0 { stream := seedStream 0, pos := 0 }).2.2
      (seedStream 0) 0 2 ["Cardiology"] (by decide)⟩

/-- C10: after `load_data_to_db` both tables carry only the
constraint-free schema pandas `to_sql(..., if_exists = 'replace')`
creates, not the primary/foreign keys `create_database` declared; the
declared keys exist only on tables `create_database` made that no load
has yet replaced. -/
theorem load_drops_declared_constraints (db : Database)
    (patient_data : List PatientRow) (hospital_data : List HospitalRow) :
    (load_data_to_db patient_data hospital_data db).patients
        = some { schema := pandasSchema, rows := patient_data } ∧
    (load_data_to_db patient_data hospital_data db).hospitals
        = some { schema := pandasSchema, rows := hospital_data } ∧
    pandasSchema.primaryKey = none ∧
    pandasSchema.foreignKeys = [] ∧
    (create_database emptyDatabase).patients
        = some { schema := patientsDeclaredSchema, rows := [] } ∧
    (create_database emptyDatabase).hospitals
        = some { schema := hospitalsDeclaredSchema, rows := [] } ∧
    patientsDeclaredSchema.primaryKey = some "patient_id" ∧
    patientsDeclaredSchema.foreignKeys = [("hospital_id", "hospitals")] ∧
    hospitalsDeclaredSchema.primaryKey = some "hospital_id" :=
  ⟨rfl, rfl, rfl, rfl, rfl, rfl, rfl, rfl, rfl⟩
